import Mathlib

/-!
Shallow embedding of the LocalFirst Orchestrator (LFO) hybrid routing and
resilience engine, translated from the TypeScript sources:

* `lfo-core/src/routing.ts`            — routing decision functions
* `lfo-core/src/providers/android.ts`  — local-backend circuit breaker
* `lfo-core/src/providers/gemini.ts`   — cloud-backend circuit breaker
* `lfo-core/src/stats.ts`              — ring buffer + counters
* `lfo-core/src/router.ts`             — request pipeline (`createApp` handler)

JavaScript numbers are modelled as `ℚ` (exact rationals; none of the
properties below depends on binary floating-point rounding), string lengths
and token counts as `ℕ`, absent (`undefined`) optional fields as `Option`,
and thrown errors as `Except String`.  Clock reads (`Date.now()`) become
explicit `now : ℕ` parameters.
-/

namespace LFO

/-- A JavaScript value as far as the validation code inspects it:
either a string or some non-string value (number, object, null,
undefined, ...). `typeof v === "string"` is `JsVal.isStr`. -/
inductive JsVal where
  | str (s : String)
  | notStr
  deriving DecidableEq, Repr

def JsVal.isStr : JsVal → Bool
  | .str _ => true
  | .notStr => false

/-- Extract the string payload (only used after `isStr` has been checked). -/
def JsVal.asStr : JsVal → String
  | .str s => s
  | .notStr => ""

/-- `ChatMessage` from `types.ts` (the `role` union type is a string). -/
structure ChatMessage where
  role : String
  content : String
  deriving DecidableEq, Repr

/-- `Mode` from `routing.ts`. -/
inductive Mode where
  | auto
  | local
  | cloud
  deriving DecidableEq, Repr

def Mode.render : Mode → String
  | .auto => "auto"
  | .local => "local"
  | .cloud => "cloud"

/-- Routing target: `"local" | "cloud"`. -/
inductive Target where
  | local
  | cloud
  deriving DecidableEq, Repr

def Target.render : Target → String
  | .local => "local"
  | .cloud => "cloud"

/-- `estimateTokens` (routing.ts): `Math.ceil(messages.map(m =>
m.content).join(" ").length / 4)`.  `(n + 3) / 4` is exactly
`Math.ceil(n / 4)` on naturals. -/
def estimateTokens (messages : List ChatMessage) : ℕ :=
  ((String.intercalate " " (messages.map (·.content))).length + 3) / 4

/-- `resolveMode` (routing.ts): a string in the `VALID_MODES` set maps to
itself, everything else (wrong type included) resolves to `auto`. -/
def resolveMode (raw : JsVal) : Mode :=
  match raw with
  | .str "auto" => .auto
  | .str "local" => .local
  | .str "cloud" => .cloud
  | _ => .auto

/-- Result of the local backend as inspected by the router:
`{ confidence?: number; cloud_handoff?: boolean }`. -/
structure LocalSignal where
  confidence : Option ℚ
  cloud_handoff : Option Bool
  deriving DecidableEq, Repr

/-- `RoutingDecision`: `{ target, reason, skipLocal? }`; an absent
`skipLocal` is falsy in JS, hence the `false` default. -/
structure Decision where
  target : Target
  reason : String
  skipLocal : Bool := false
  deriving DecidableEq, Repr

/-- Two-digit zero padding used by the decimal renderings below. -/
def pad2 (n : ℕ) : String :=
  if n < 10 then "0" ++ toString n else toString n

/-- `Number.prototype.toFixed(2)`: round `q * 100` to the nearest integer,
ties toward the larger integer, then print with exactly two fractional
digits. -/
def jsToFixed2 (q : ℚ) : String :=
  let n : ℤ := ⌊q * 100 + 1 / 2⌋
  if n < 0 then
    "-" ++ toString (-n / 100) ++ "." ++ pad2 ((-n % 100).toNat)
  else
    toString (n / 100) ++ "." ++ pad2 ((n % 100).toNat)

/-- Fractional digits of `r ∈ [0,1)`, at most `fuel` of them, stopping at a
terminating expansion (models the shortest-representation rendering of a
JS number in a template literal for the terminating decimals that actually
occur here). -/
def fracDigits : ℕ → ℚ → List Char
  | 0, _ => []
  | fuel + 1, r =>
    if r = 0 then []
    else
      let r10 := r * 10
      let d : ℕ := (⌊r10⌋).toNat
      (Char.ofNat (48 + d)) :: fracDigits fuel (r10 - (d : ℚ))

/-- Decimal rendering of a JS number in a template literal
(for example the threshold in a routing reason). -/
def decimalString (q : ℚ) : String :=
  let sign := if q < 0 then "-" else ""
  let a := if q < 0 then -q else q
  let ip : ℕ := (⌊a⌋).toNat
  let frac := fracDigits 20 (a - (ip : ℚ))
  sign ++ toString ip ++ (if frac.isEmpty then "" else "." ++ String.mk frac)

/-- Default confidence threshold from `routing.ts`. -/
def DEFAULT_CONFIDENCE_THRESHOLD : ℚ := 7 / 10

/-- `evaluateConfidenceRouting` (routing.ts): no prior result → local
first attempt; `cloud_handoff === true` → cloud; confidence (default 0.5)
below threshold → cloud; otherwise local. -/
def evaluateConfidenceRouting (localResult : Option LocalSignal)
    (confidenceThreshold : ℚ := DEFAULT_CONFIDENCE_THRESHOLD) : Decision :=
  match localResult with
  | none => { target := .local, reason := "initial_attempt" }
  | some r =>
    if r.cloud_handoff = some true then
      { target := .cloud, reason := "cloud_handoff_flag" }
    else
      let confidence := r.confidence.getD (1 / 2)
      if confidence < confidenceThreshold then
        { target := .cloud
          reason := "low_confidence_" ++ jsToFixed2 confidence ++ "_below_"
            ++ decimalString confidenceThreshold }
      else
        { target := .local, reason := "high_confidence_" ++ jsToFixed2 confidence }

/-- `determineTargetHybrid` (routing.ts).  `maxLocalTokens` is
`CONFIG.routing.maxLocalTokens` (env-configurable, default 1500), passed
explicitly here. -/
def determineTargetHybrid (maxLocalTokens : ℕ) (messages : List ChatMessage)
    (mode : Mode) (localResult : Option LocalSignal) : Decision :=
  match mode with
  | .local => { target := .local, reason := "mode_override" }
  | .cloud => { target := .cloud, reason := "mode_override" }
  | .auto =>
    let tokens := estimateTokens messages
    if tokens > maxLocalTokens then
      { target := .cloud
        reason := "tokens_" ++ toString tokens ++ "_exceeds_" ++ toString maxLocalTokens
        skipLocal := true }
    else
      evaluateConfidenceRouting localResult

/-- `a.includes(b)` on JS strings: `b` occurs as a contiguous substring
of `a`. -/
def jsIncludes (hay sub : String) : Bool :=
  decide (sub.data <:+: hay.data)

/-- A tool call returned by a provider (`FunctionCall` in types.ts; only the
name participates in any routing decision, arguments are passed through). -/
structure FunctionCall where
  name : String
  deriving DecidableEq, Repr

/-- `ProviderResponse` from types.ts. -/
structure ProviderResponse where
  role : String := "assistant"
  content : String
  function_calls : Option (List FunctionCall) := none
  confidence : Option ℚ := none
  cloud_handoff : Option Bool := none
  total_time_ms : Option ℕ := none
  deriving DecidableEq, Repr

/-- A raw message before validation: `role` and `content` are arbitrary
JS values. -/
structure RawMessage where
  role : JsVal
  content : JsVal
  deriving DecidableEq, Repr

/-- The `messages` field of a request body, as the validation code sees it:
absent (or null/false-y), present but not an array, or an array of raw
(unvalidated) messages. -/
inductive MessagesField where
  | absent
  | notArray
  | arr (l : List RawMessage)
  deriving DecidableEq, Repr

/-- The request-body fields that influence the modelled control flow of the
completion handler.  `max_tokens`, `temperature` and `tools` are passed
through to the (injected) providers and do not affect routing, so they are
omitted from the model. -/
structure Body where
  stream : Option Bool := none
  messages : MessagesField
  mode_raw : JsVal := .notStr
  confidence_threshold : Option ℚ := none
  deriving DecidableEq, Repr

/-- `RequestRecord` from stats.ts. -/
structure RequestRecord where
  ts : String
  mode : String
  target : String
  prompt_tokens : ℕ
  completion_tokens : ℕ
  latency_ms : ℕ
  status : ℕ
  error : Option String
  deriving DecidableEq, Repr

/-- `lfo_metadata` on a `ChatResponse` (all three fields are optional in
the TS type; the handler always populates `routing_reason` and
`local_attempt`, while `confidence` is copied from the final provider
message and may be absent). -/
structure LfoMetadata where
  confidence : Option ℚ
  routing_reason : Option String
  local_attempt : Option Bool
  deriving DecidableEq, Repr

structure Usage where
  prompt_tokens : ℕ
  completion_tokens : ℕ
  total_tokens : ℕ
  deriving DecidableEq, Repr

structure Choice where
  index : ℕ
  message : ProviderResponse
  finish_reason : String
  deriving DecidableEq, Repr

/-- `ChatResponse` from types.ts, without the fields derived from the clock
and the random id (`id`, `object`, `created`), which no claim concerns.
`lfo_metadata` is optional in the TS type, hence the `Option`. -/
structure ChatResponse where
  model : String
  choices : List Choice
  usage : Usage
  lfo_metadata : Option LfoMetadata
  deriving DecidableEq, Repr

/-- The HTTP outcome of the completion handler. -/
inductive HandlerOut where
  | ok (resp : ChatResponse)
  | err (status : ℕ) (etype : String) (message : String) (code : Option String)
  deriving DecidableEq, Repr

/-- One handler execution: the HTTP outcome, whether each provider adapter
was invoked, and the stats record passed to `recordRequest` (if any). -/
structure HandlerTrace where
  out : HandlerOut
  localCalled : Bool
  cloudCalled : Bool
  recorded : Option RequestRecord
  deriving DecidableEq, Repr

/-- The message validation of the completion handler (router.ts): `messages`
must be a non-empty array and every element must have string `role` and
string `content`; on violation the matching error message is produced. -/
def validateMessages (mf : MessagesField) : Except String (List ChatMessage) :=
  match mf with
  | .absent => .error "messages field is required and must be a non-empty array"
  | .notArray => .error "messages field is required and must be a non-empty array"
  | .arr l =>
    if l.isEmpty then
      .error "messages field is required and must be a non-empty array"
    else if l.any (fun m => !m.role.isStr || !m.content.isStr) then
      .error "Each message must have a string 'role' and string 'content' field"
    else
      .ok (l.map (fun m => { role := m.role.asStr, content := m.content.asStr }))

/-- The catch-block error classification of router.ts: substring matching on
the thrown message chooses the HTTP status and error type. -/
def classifyError (message : String) : ℕ × String :=
  if jsIncludes message "timeout" then (504, "lfo_timeout")
  else if jsIncludes message "rate limit" then (429, "rate_limit_exceeded")
  else if jsIncludes message "quota" then (403, "quota_exceeded")
  else if jsIncludes message "Cannot reach" || jsIncludes message "circuit" then
    (503, "service_unavailable")
  else if jsIncludes message "invalid or revoked" then (401, "authentication_error")
  else (502, "lfo_provider_error")

/-- The catch-block target attribution of router.ts (for error reporting
and stats). -/
def errorTargetOf (message : String) : Target :=
  if jsIncludes message "Android" || jsIncludes message "circuit breaker is open" then
    .local
  else if jsIncludes message "Gemini" then .cloud
  else .local

/-- The error path of the completion handler: classify, build the error
response, and record the request in stats. -/
def errorTrace (message : String) (mode : Mode) (promptTokens : ℕ)
    (ts : String) (latency : ℕ) (localCalled cloudCalled : Bool) : HandlerTrace :=
  let (status, etype) := classifyError message
  let target := errorTargetOf message
  { out := .err status etype message (some (target.render ++ "_error"))
    localCalled := localCalled
    cloudCalled := cloudCalled
    recorded := some
      { ts := ts, mode := mode.render, target := target.render
        prompt_tokens := promptTokens, completion_tokens := 0
        latency_ms := latency, status := status, error := some message } }

/-- The success path of the completion handler: build the `ChatResponse`
(with the character-count completion-token heuristic and the
`lfo_metadata` triplet) and record the request in stats. -/
def successResponse (providerMessage : ProviderResponse) (finalTarget : Target)
    (routingReason : String) (localAttempted : Bool) (promptTokens : ℕ) : ChatResponse :=
  let completionTokens := (providerMessage.content.length + 3) / 4
  { model := match finalTarget with
      | .local => "lfo-local-functiongemma"
      | .cloud => "lfo-gemini"
    choices := [{ index := 0, message := providerMessage, finish_reason := "stop" }]
    usage := { prompt_tokens := promptTokens
               completion_tokens := completionTokens
               total_tokens := promptTokens + completionTokens }
    lfo_metadata := some
      { confidence := providerMessage.confidence
        routing_reason := some routingReason
        local_attempt := some localAttempted } }

def successTrace (providerMessage : ProviderResponse) (finalTarget : Target)
    (routingReason : String) (localAttempted : Bool) (mode : Mode)
    (promptTokens : ℕ) (ts : String) (latency : ℕ)
    (localCalled cloudCalled : Bool) : HandlerTrace :=
  { out := .ok (successResponse providerMessage finalTarget routingReason localAttempted promptTokens)
    localCalled := localCalled
    cloudCalled := cloudCalled
    recorded := some
      { ts := ts, mode := mode.render, target := finalTarget.render
        prompt_tokens := promptTokens
        completion_tokens := (providerMessage.content.length + 3) / 4
        latency_ms := latency, status := 200, error := none } }

/-- The routing body of the completion handler, after validation: the
token pre-filter / explicit-mode branch, the local attempt, and the
confidence-driven escalation (router.ts lines 220-265). -/
def routeValidated (maxLocalTokens : ℕ)
    (localOut cloudOut : Except String ProviderResponse)
    (mode : Mode) (confidenceThreshold : ℚ) (messages : List ChatMessage)
    (ts : String) (latency : ℕ) : HandlerTrace :=
  if (determineTargetHybrid maxLocalTokens messages mode none).skipLocal then
    match cloudOut with
    | .error e => errorTrace e mode (estimateTokens messages) ts latency false true
    | .ok pm =>
      successTrace pm .cloud (determineTargetHybrid maxLocalTokens messages mode none).reason
        false mode (estimateTokens messages) ts latency false true
  else if (determineTargetHybrid maxLocalTokens messages mode none).target = .cloud then
    match cloudOut with
    | .error e => errorTrace e mode (estimateTokens messages) ts latency false true
    | .ok pm =>
      successTrace pm .cloud (determineTargetHybrid maxLocalTokens messages mode none).reason
        false mode (estimateTokens messages) ts latency false true
  else
    match localOut with
    | .error e => errorTrace e mode (estimateTokens messages) ts latency true false
    | .ok localResult =>
      if (evaluateConfidenceRouting
          (some { confidence := localResult.confidence
                  cloud_handoff := localResult.cloud_handoff })
          confidenceThreshold).target = .cloud then
        match cloudOut with
        | .error e => errorTrace e mode (estimateTokens messages) ts latency true true
        | .ok pm =>
          successTrace pm .cloud
            (evaluateConfidenceRouting
              (some { confidence := localResult.confidence
                      cloud_handoff := localResult.cloud_handoff })
              confidenceThreshold).reason
            true mode (estimateTokens messages) ts latency true true
      else
        successTrace localResult .local
          (evaluateConfidenceRouting
            (some { confidence := localResult.confidence
                    cloud_handoff := localResult.cloud_handoff })
            confidenceThreshold).reason
          true mode (estimateTokens messages) ts latency true false

/-- The `POST /v1/chat/completions` handler of router.ts (`createApp`),
with the two provider adapters replaced by their injected outcomes
(`Except` mirrors a rejected/resolved promise) and the clock reads by the
`ts`/`latency` parameters. -/
def handleCompletion (maxLocalTokens : ℕ)
    (localOut cloudOut : Except String ProviderResponse)
    (body : Body) (ts : String) (latency : ℕ) : HandlerTrace :=
  if body.stream = some true then
    { out := .err 501 "not_implemented"
        "Streaming is not supported in LFO v0. Set stream: false or omit the field." none
      localCalled := false, cloudCalled := false, recorded := none }
  else
    match validateMessages body.messages with
    | .error emsg =>
      { out := .err 400 "invalid_request_error" emsg none
        localCalled := false, cloudCalled := false, recorded := none }
    | .ok messages =>
      routeValidated maxLocalTokens localOut cloudOut (resolveMode body.mode_raw)
        (body.confidence_threshold.getD (7 / 10)) messages ts latency

-- ---------------------------------------------------------------------------
-- stats.ts — ring buffer + counters
-- ---------------------------------------------------------------------------

/-- `RING_SIZE` from stats.ts. -/
def RING_SIZE : ℕ := 50

/-- The module-level mutable state of stats.ts. -/
structure StatsState where
  ring : List RequestRecord
  totalRequests : ℕ
  totalLocal : ℕ
  totalCloud : ℕ
  totalErrors : ℕ
  sumLatencyLocal : ℕ
  sumLatencyCloud : ℕ
  circuitTripCount : ℕ
  deriving DecidableEq, Repr

/-- The initial stats state (all counters zero, empty ring). -/
def initStats : StatsState :=
  { ring := [], totalRequests := 0, totalLocal := 0, totalCloud := 0
    totalErrors := 0, sumLatencyLocal := 0, sumLatencyCloud := 0
    circuitTripCount := 0 }

/-- `recordRequest` (stats.ts): push onto the ring, evict the oldest entry
when over capacity (`shift()` removes the front), then bump the counters. -/
def recordRequest (r : RequestRecord) (s : StatsState) : StatsState :=
  let ring1 := s.ring ++ [r]
  let ring2 := if ring1.length > RING_SIZE then ring1.tail else ring1
  { s with
    ring := ring2
    totalRequests := s.totalRequests + 1
    totalLocal := if r.target = "local" then s.totalLocal + 1 else s.totalLocal
    sumLatencyLocal :=
      if r.target = "local" then s.sumLatencyLocal + r.latency_ms else s.sumLatencyLocal
    totalCloud := if r.target = "local" then s.totalCloud else s.totalCloud + 1
    sumLatencyCloud :=
      if r.target = "local" then s.sumLatencyCloud else s.sumLatencyCloud + r.latency_ms
    totalErrors := if r.status ≥ 400 then s.totalErrors + 1 else s.totalErrors }

/-- `incrementCircuitTrips` (stats.ts). -/
def incrementCircuitTrips (s : StatsState) : StatsState :=
  { s with circuitTripCount := s.circuitTripCount + 1 }

/-- `Math.round(x)` = ⌊x + 1/2⌋. -/
def jsRound (q : ℚ) : ℤ := ⌊q + 1 / 2⌋

/-- The snapshot returned by `getStats` (stats.ts). -/
structure StatsSnapshot where
  uptime_ms : ℕ
  total_requests : ℕ
  total_local : ℕ
  total_cloud : ℕ
  total_errors : ℕ
  avg_latency_local_ms : ℤ
  avg_latency_cloud_ms : ℤ
  circuit_trip_count : ℕ
  recent : List RequestRecord
  deriving DecidableEq, Repr

/-- `getStats` (stats.ts): counters plus the ring contents newest-first
(`[...ringBuffer].reverse()`). -/
def getStats (now startTime : ℕ) (s : StatsState) : StatsSnapshot :=
  { uptime_ms := now - startTime
    total_requests := s.totalRequests
    total_local := s.totalLocal
    total_cloud := s.totalCloud
    total_errors := s.totalErrors
    avg_latency_local_ms :=
      if s.totalLocal > 0 then jsRound ((s.sumLatencyLocal : ℚ) / s.totalLocal) else 0
    avg_latency_cloud_ms :=
      if s.totalCloud > 0 then jsRound ((s.sumLatencyCloud : ℚ) / s.totalCloud) else 0
    circuit_trip_count := s.circuitTripCount
    recent := s.ring.reverse }

-- ---------------------------------------------------------------------------
-- providers/android.ts — local-backend circuit breaker
-- ---------------------------------------------------------------------------

/-- `FAILURE_THRESHOLD` (android.ts). -/
def FAILURE_THRESHOLD : ℕ := 3

/-- `RESET_TIMEOUT_MS` (android.ts). -/
def RESET_TIMEOUT_MS : ℕ := 30000

inductive CircuitState where
  | CLOSED
  | OPEN
  | HALF_OPEN
  deriving DecidableEq, Repr

/-- The module-level breaker state of android.ts. -/
structure AndroidCB where
  state : CircuitState
  consecutiveFailures : ℕ
  openedAt : ℕ
  halfOpenProbeInFlight : Bool
  deriving DecidableEq, Repr

/-- The initial (and `resetCircuitBreaker`) state of the Android breaker. -/
def androidInit : AndroidCB :=
  { state := .CLOSED, consecutiveFailures := 0, openedAt := 0
    halfOpenProbeInFlight := false }

/-- `circuitAllow` (android.ts): returns the updated state and whether the
call is admitted.  `Date.now() - openedAt` uses truncated subtraction,
which agrees with the JS comparison for every `now` (a negative JS
difference compares below the timeout exactly as `0` does). -/
def circuitAllow (now : ℕ) (s : AndroidCB) : AndroidCB × Bool :=
  match s.state with
  | .CLOSED => (s, true)
  | .OPEN =>
    if now - s.openedAt ≥ RESET_TIMEOUT_MS then
      ({ s with state := .HALF_OPEN, halfOpenProbeInFlight := true }, true)
    else
      (s, false)
  | .HALF_OPEN =>
    if s.halfOpenProbeInFlight then (s, false)
    else ({ s with halfOpenProbeInFlight := true }, true)

/-- `circuitOnSuccess` (android.ts): unconditionally close the breaker and
reset the counters. -/
def circuitOnSuccess (s : AndroidCB) : AndroidCB :=
  { s with state := .CLOSED, consecutiveFailures := 0, halfOpenProbeInFlight := false }

/-- `circuitOnFailure` (android.ts): clear the probe flag, bump the
consecutive-failure counter, and open the breaker (stamping `openedAt`)
when probing or at the failure threshold. -/
def circuitOnFailure (now : ℕ) (s : AndroidCB) : AndroidCB :=
  let failures := s.consecutiveFailures + 1
  if s.state = .HALF_OPEN ∨ failures ≥ FAILURE_THRESHOLD then
    { state := .OPEN, consecutiveFailures := failures, openedAt := now
      halfOpenProbeInFlight := false }
  else
    { s with consecutiveFailures := failures, halfOpenProbeInFlight := false }

/-- The circuit-open error message of `callAndroidCactus` (android.ts). -/
def androidCircuitOpenMsg (now : ℕ) (s : AndroidCB) : String :=
  "Android circuit breaker is open. Device assumed offline. Will retry in ~"
    ++ toString ((RESET_TIMEOUT_MS - (now - s.openedAt) + 999) / 1000) ++ "s"

/-- `callAndroidCactus` (android.ts): gate through the breaker; when
admitted, run the HTTP call (its outcome injected as `fetchOutcome`) and
feed the result back into the breaker.  The third component records whether
the network call was attempted. -/
def callAndroidCactus (now : ℕ) (s : AndroidCB)
    (fetchOutcome : Except String ProviderResponse) :
    AndroidCB × Except String ProviderResponse × Bool :=
  let (s1, allowed) := circuitAllow now s
  if allowed then
    match fetchOutcome with
    | .ok r => (circuitOnSuccess s1, .ok r, true)
    | .error e => (circuitOnFailure now s1, .error e, true)
  else
    (s1, .error (androidCircuitOpenMsg now s1), false)

-- ---------------------------------------------------------------------------
-- providers/gemini.ts — cloud-backend circuit breaker
-- ---------------------------------------------------------------------------

/-- `CB_FAILURE_THRESHOLD` (gemini.ts). -/
def CB_FAILURE_THRESHOLD : ℕ := 3

/-- `CB_RESET_TIMEOUT_MS` (gemini.ts). -/
def CB_RESET_TIMEOUT_MS : ℕ := 60000

/-- The module-level breaker state of gemini.ts. -/
structure GeminiCB where
  cbState : CircuitState
  cbFailures : ℕ
  cbOpenedAt : ℕ
  cbHalfOpenInFlight : Bool
  deriving DecidableEq, Repr

/-- The initial (and `resetGeminiCircuitBreaker`) state of the Gemini
breaker. -/
def geminiInit : GeminiCB :=
  { cbState := .CLOSED, cbFailures := 0, cbOpenedAt := 0, cbHalfOpenInFlight := false }

/-- `cbAllow` (gemini.ts). -/
def cbAllow (now : ℕ) (s : GeminiCB) : GeminiCB × Bool :=
  match s.cbState with
  | .CLOSED => (s, true)
  | .OPEN =>
    if now - s.cbOpenedAt ≥ CB_RESET_TIMEOUT_MS then
      ({ s with cbState := .HALF_OPEN, cbHalfOpenInFlight := true }, true)
    else
      (s, false)
  | .HALF_OPEN =>
    if s.cbHalfOpenInFlight then (s, false)
    else ({ s with cbHalfOpenInFlight := true }, true)

/-- `cbSuccess` (gemini.ts). -/
def cbSuccess (s : GeminiCB) : GeminiCB :=
  { s with cbState := .CLOSED, cbFailures := 0, cbHalfOpenInFlight := false }

/-- `cbFailure` (gemini.ts): clear the probe flag; a non-tripworthy failure
changes nothing else, a tripworthy one bumps the counter and opens the
breaker when probing or at the threshold. -/
def cbFailure (tripworthy : Bool) (now : ℕ) (s : GeminiCB) : GeminiCB :=
  if !tripworthy then
    { s with cbHalfOpenInFlight := false }
  else
    let failures := s.cbFailures + 1
    if s.cbState = .HALF_OPEN ∨ failures ≥ CB_FAILURE_THRESHOLD then
      { cbState := .OPEN, cbFailures := failures, cbOpenedAt := now
        cbHalfOpenInFlight := false }
    else
      { s with cbFailures := failures, cbHalfOpenInFlight := false }

/-- The tripworthy classification in `callGemini` (gemini.ts): 401/403
config errors (key invalid/revoked, quota exceeded) do not trip the
breaker. -/
def geminiTripworthy (message : String) : Bool :=
  !jsIncludes message "invalid or revoked" && !jsIncludes message "quota exceeded"

/-- The circuit-open error message of `callGemini` (gemini.ts). -/
def geminiCircuitOpenMsg (now : ℕ) (s : GeminiCB) : String :=
  "Gemini circuit breaker open. Gemini appears unavailable. Will retry in ~"
    ++ toString ((CB_RESET_TIMEOUT_MS - (now - s.cbOpenedAt) + 999) / 1000) ++ "s"

/-- `callGemini` (gemini.ts): gate through the breaker; when admitted, run
the SDK call (outcome injected) and feed the result back, with the
tripworthy classification on failure.  The third component records whether
the backend call was attempted. -/
def callGemini (now : ℕ) (s : GeminiCB)
    (fetchOutcome : Except String ProviderResponse) :
    GeminiCB × Except String ProviderResponse × Bool :=
  let (s1, allowed) := cbAllow now s
  if allowed then
    match fetchOutcome with
    | .ok r => (cbSuccess s1, .ok r, true)
    | .error e => (cbFailure (geminiTripworthy e) now s1, .error e, true)
  else
    (s1, .error (geminiCircuitOpenMsg now s1), false)

-- ---------------------------------------------------------------------------
-- Async reachability of breaker states
-- ---------------------------------------------------------------------------

/-- Reachable configurations `(breaker state, in-flight admitted calls,
current time)` of the Android breaker under the event-driven execution
model of the server: an admitted call (`circuitAllow` returned `true`)
runs concurrently and completes later — at any later time and in any order
relative to other calls — invoking `circuitOnSuccess` or
`circuitOnFailure` when it resolves. -/
inductive AndroidReach : AndroidCB → ℕ → ℕ → Prop where
  | init : AndroidReach androidInit 0 0
  | grant {s : AndroidCB} {p t : ℕ} (t' : ℕ) {s' : AndroidCB} :
      AndroidReach s p t → t ≤ t' → circuitAllow t' s = (s', true) →
      AndroidReach s' (p + 1) t'
  | reject {s : AndroidCB} {p t : ℕ} (t' : ℕ) {s' : AndroidCB} :
      AndroidReach s p t → t ≤ t' → circuitAllow t' s = (s', false) →
      AndroidReach s' p t'
  | completeOk {s : AndroidCB} {p t : ℕ} (t' : ℕ) :
      AndroidReach s (p + 1) t → t ≤ t' →
      AndroidReach (circuitOnSuccess s) p t'
  | completeErr {s : AndroidCB} {p t : ℕ} (t' : ℕ) :
      AndroidReach s (p + 1) t → t ≤ t' →
      AndroidReach (circuitOnFailure t' s) p t'

-- ---------------------------------------------------------------------------
-- Helper lemmas
-- ---------------------------------------------------------------------------

/-- A low-confidence escalation reason can never collide with the handoff
reason (their lengths already differ). -/
lemma low_reason_ne_handoff (x y : String) :
    ("low_confidence_" ++ x ++ "_below_" ++ y) ≠ "cloud_handoff_flag" := by
  intro h
  have h2 := congrArg String.length h
  have e1 : "low_confidence_".length = 15 := rfl
  have e2 : "_below_".length = 7 := rfl
  have e3 : "cloud_handoff_flag".length = 18 := rfl
  simp only [String.length_append, e1, e2, e3] at h2
  omega

-- ---------------------------------------------------------------------------
-- C1 — evaluateConfidenceRouting
-- ---------------------------------------------------------------------------

/-- C1: for every threshold, `evaluateConfidenceRouting` returns
`{local, initial_attempt}` with no prior result; `{cloud,
cloud_handoff_flag}` whenever the handoff flag is exactly `true`,
regardless of confidence; otherwise, with confidence defaulting to 0.5,
confidence strictly below the threshold yields cloud with the
`low_confidence_<c>_below_<threshold>` reason (distinct from the handoff
reason), and confidence at or above the threshold yields local with the
`high_confidence_<c>` reason. -/
theorem c1_evaluateConfidenceRouting_spec (t : ℚ) (conf : Option ℚ) (ho : Option Bool) :
    evaluateConfidenceRouting none t = { target := .local, reason := "initial_attempt" }
    ∧ evaluateConfidenceRouting (some { confidence := conf, cloud_handoff := some true }) t
        = { target := .cloud, reason := "cloud_handoff_flag" }
    ∧ (ho ≠ some true →
        (conf.getD (1 / 2) < t →
          evaluateConfidenceRouting (some { confidence := conf, cloud_handoff := ho }) t
            = { target := .cloud
                reason := "low_confidence_" ++ jsToFixed2 (conf.getD (1 / 2)) ++ "_below_"
                  ++ decimalString t }
          ∧ (evaluateConfidenceRouting (some { confidence := conf, cloud_handoff := ho }) t).reason
              ≠ "cloud_handoff_flag")
        ∧ (t ≤ conf.getD (1 / 2) →
          evaluateConfidenceRouting (some { confidence := conf, cloud_handoff := ho }) t
            = { target := .local
                reason := "high_confidence_" ++ jsToFixed2 (conf.getD (1 / 2)) })) := by
  refine ⟨rfl, by simp [evaluateConfidenceRouting], ?_⟩
  intro hho
  constructor
  · intro hlt
    have hlt' : conf.getD 2⁻¹ < t := by simpa using hlt
    constructor
    · simp [evaluateConfidenceRouting, hho, hlt']
    · simp [evaluateConfidenceRouting, hho, hlt']
      exact low_reason_ne_handoff _ _
  · intro hge
    have hge' : ¬ conf.getD 2⁻¹ < t := by simpa using not_lt.mpr hge
    simp [evaluateConfidenceRouting, hho, hge']

lemma fracDigits_succ (fuel : ℕ) (r : ℚ) :
    fracDigits (fuel + 1) r =
      if r = 0 then []
      else Char.ofNat (48 + (⌊r * 10⌋).toNat)
        :: fracDigits fuel (r * 10 - (((⌊r * 10⌋).toNat : ℕ) : ℚ)) := rfl

lemma fracDigits_zero (fuel : ℕ) : fracDigits fuel 0 = [] := by
  cases fuel <;> simp [fracDigits]

lemma jsToFixed2_045 : jsToFixed2 (9 / 20) = "0.45" := by
  have hf : ⌊(9 / 20 : ℚ) * 100 + 1 / 2⌋ = 45 := by
    rw [show (9 / 20 : ℚ) * 100 + 1 / 2 = 91 / 2 by norm_num]
    rw [Int.floor_eq_iff] <;> norm_num
  simp only [jsToFixed2, hf]
  decide

lemma decimalString_07 : decimalString (7 / 10) = "0.7" := by
  have h1 : ¬ (7 / 10 : ℚ) < 0 := by norm_num
  have h2 : ⌊(7 / 10 : ℚ)⌋ = 0 := by rw [Int.floor_eq_iff] <;> norm_num
  have h3 : fracDigits 20 (7 / 10 : ℚ) = ['7'] := by
    rw [show (20 : ℕ) = 19 + 1 from rfl, fracDigits_succ]
    rw [if_neg (by norm_num : ¬ (7 / 10 : ℚ) = 0)]
    rw [show (7 / 10 : ℚ) * 10 = 7 by norm_num]
    rw [show ⌊(7 : ℚ)⌋ = 7 by rw [Int.floor_eq_iff] <;> norm_num]
    rw [show ((7 : ℤ).toNat : ℕ) = 7 from rfl]
    rw [show (7 : ℚ) - ((7 : ℕ) : ℚ) = 0 by norm_num]
    rw [fracDigits_zero]
  simp only [decimalString, if_neg h1, h2]
  rw [show (7 / 10 : ℚ) - (((0 : ℤ).toNat : ℕ) : ℚ) = 7 / 10 by norm_num, h3]
  decide

/-- Witness for C1 at the spec's own example: confidence 0.45 against
threshold 0.7 escalates with the `low_confidence_0.45_below_0.7` reason. -/
theorem c1_witness :
    evaluateConfidenceRouting
        (some { confidence := some (9 / 20), cloud_handoff := none }) (7 / 10)
      = { target := .cloud, reason := "low_confidence_0.45_below_0.7" } := by
  have h := ((c1_evaluateConfidenceRouting_spec (7 / 10) (some (9 / 20)) none).2.2
    (by decide)).1 (by norm_num)
  refine h.1.trans ?_
  rw [show (some (9 / 20) : Option ℚ).getD (1 / 2) = 9 / 20 from rfl,
    jsToFixed2_045, decimalString_07]
  decide

-- ---------------------------------------------------------------------------
-- C2 — token pre-filter routing
-- ---------------------------------------------------------------------------

/-- The 6001-character message of the spec's end-to-end scenario B. -/
def bigContent : String := String.mk (List.replicate 6001 'a')

lemma estimateTokens_singleton (r s : String) :
    estimateTokens [{ role := r, content := s }] = (s.length + 3) / 4 := rfl

lemma bigContent_length : bigContent.length = 6001 := by
  show (List.replicate 6001 'a').length = 6001
  exact List.length_replicate 6001 'a'

lemma estimateTokens_big :
    estimateTokens [{ role := "user", content := bigContent }] = 1501 := by
  rw [estimateTokens_singleton, bigContent_length]

/-- Scenario B request body: a single 6001-character user message in
`auto` mode. -/
def bigBody : Body :=
  { messages := .arr [{ role := .str "user", content := .str bigContent }]
    mode_raw := .str "auto" }

/-- C2: in `auto` mode, `determineTargetHybrid` routes to cloud with
`skipLocal = true` exactly when the token estimate exceeds the threshold,
and otherwise proceeds to the local first attempt; in particular a single
message of 6001 identical characters under threshold 1500 estimates 1501
tokens and the handler goes straight to the cloud adapter, never invoking
the local one. -/
theorem c2_token_prefilter_routing (maxLocalTokens : ℕ) (messages : List ChatMessage) :
    (estimateTokens messages > maxLocalTokens →
      determineTargetHybrid maxLocalTokens messages .auto none
        = { target := .cloud
            reason := "tokens_" ++ toString (estimateTokens messages) ++ "_exceeds_"
              ++ toString maxLocalTokens
            skipLocal := true })
    ∧ (estimateTokens messages ≤ maxLocalTokens →
      determineTargetHybrid maxLocalTokens messages .auto none
        = { target := .local, reason := "initial_attempt" })
    ∧ (∀ (localOut cloudOut : Except String ProviderResponse) (thr : ℚ)
        (ts : String) (lat : ℕ),
        estimateTokens messages ≤ maxLocalTokens →
        (routeValidated maxLocalTokens localOut cloudOut .auto thr messages ts lat).localCalled
          = true)
    ∧ estimateTokens [{ role := "user", content := bigContent }] = 1501
    ∧ (∀ (localOut cloudOut : Except String ProviderResponse) (ts : String) (lat : ℕ),
        (handleCompletion 1500 localOut cloudOut bigBody ts lat).localCalled = false
        ∧ (handleCompletion 1500 localOut cloudOut bigBody ts lat).cloudCalled = true) := by
  refine ⟨?_, ?_, ?_, estimateTokens_big, ?_⟩
  · intro h
    simp [determineTargetHybrid, h]
  · intro h
    simp [determineTargetHybrid, not_lt.mpr h, evaluateConfidenceRouting]
  · intro localOut cloudOut thr ts lat h
    have hdec : determineTargetHybrid maxLocalTokens messages .auto none
        = { target := .local, reason := "initial_attempt" } := by
      simp [determineTargetHybrid, not_lt.mpr h, evaluateConfidenceRouting]
    unfold routeValidated
    rw [if_neg (by simp [hdec]), if_neg (by simp [hdec])]
    cases localOut with
    | error e => simp [errorTrace]
    | ok localResult =>
      by_cases h3 : (evaluateConfidenceRouting
          (some { confidence := localResult.confidence
                  cloud_handoff := localResult.cloud_handoff }) thr).target = Target.cloud
      · simp only [if_pos h3]
        cases cloudOut <;> simp [errorTrace, successTrace]
      · simp only [if_neg h3]
        simp [successTrace]
  · intro localOut cloudOut ts lat
    have hval : validateMessages bigBody.messages
        = .ok [{ role := "user", content := bigContent }] := rfl
    have hskip : determineTargetHybrid 1500 [{ role := "user", content := bigContent }]
        (resolveMode bigBody.mode_raw) none
        = { target := .cloud, reason := "tokens_1501_exceeds_1500", skipLocal := true } := by
      show determineTargetHybrid 1500 [{ role := "user", content := bigContent }] .auto none = _
      simp only [determineTargetHybrid, estimateTokens_big]
      norm_num
      decide
    unfold handleCompletion
    rw [if_neg (by decide : ¬ bigBody.stream = some true)]
    simp only [hval]
    unfold routeValidated
    rw [if_pos (by simp [hskip])]
    cases cloudOut <;> simp [errorTrace, successTrace]

/-- Witness for C2: the spec's scenario A — a short "hi" message stays at
or under the threshold and routing proceeds to the local first attempt. -/
theorem c2_witness :
    estimateTokens [{ role := "user", content := "hi" }] ≤ 1500
    ∧ determineTargetHybrid 1500 [{ role := "user", content := "hi" }] .auto none
        = { target := .local, reason := "initial_attempt" } :=
  ⟨by decide, (c2_token_prefilter_routing 1500 [{ role := "user", content := "hi" }]).2.1
    (by decide)⟩

-- ---------------------------------------------------------------------------
-- Shape of every successful handler outcome
-- ---------------------------------------------------------------------------

/-- Every successful `routeValidated` response is a `successResponse`. -/
lemma routeValidated_ok_shape (maxLocalTokens : ℕ)
    (localOut cloudOut : Except String ProviderResponse) (mode : Mode)
    (thr : ℚ) (msgs : List ChatMessage) (ts : String) (lat : ℕ)
    (resp : ChatResponse)
    (h : (routeValidated maxLocalTokens localOut cloudOut mode thr msgs ts lat).out
      = .ok resp) :
    ∃ pm tgt reason la, resp = successResponse pm tgt reason la (estimateTokens msgs) := by
  unfold routeValidated at h
  by_cases h1 : (determineTargetHybrid maxLocalTokens msgs mode none).skipLocal = true
  · rw [if_pos h1] at h
    cases cloudOut with
    | error e => simp [errorTrace] at h
    | ok pm => exact ⟨pm, .cloud, _, false, by simpa [successTrace] using h.symm⟩
  · rw [if_neg h1] at h
    by_cases h2 : (determineTargetHybrid maxLocalTokens msgs mode none).target = Target.cloud
    · rw [if_pos h2] at h
      cases cloudOut with
      | error e => simp [errorTrace] at h
      | ok pm => exact ⟨pm, .cloud, _, false, by simpa [successTrace] using h.symm⟩
    · rw [if_neg h2] at h
      cases localOut with
      | error e => simp [errorTrace] at h
      | ok localResult =>
        by_cases h3 : (evaluateConfidenceRouting
            (some { confidence := localResult.confidence
                    cloud_handoff := localResult.cloud_handoff }) thr).target = Target.cloud
        · simp only [if_pos h3] at h
          cases cloudOut with
          | error e => simp [errorTrace] at h
          | ok pm => exact ⟨pm, .cloud, _, true, by simpa [successTrace] using h.symm⟩
        · exact ⟨localResult, .local, _, true, by
            simp only [if_neg h3] at h
            simpa [successTrace] using h.symm⟩

/-- Every successful handler response is a `successResponse` built from the
validated messages, some final provider message, a routing reason and the
local-attempt flag. -/
lemma handleCompletion_ok_shape (maxLocalTokens : ℕ)
    (localOut cloudOut : Except String ProviderResponse) (body : Body)
    (ts : String) (lat : ℕ) (resp : ChatResponse)
    (h : (handleCompletion maxLocalTokens localOut cloudOut body ts lat).out = .ok resp) :
    ∃ msgs pm tgt reason la,
      validateMessages body.messages = .ok msgs
      ∧ resp = successResponse pm tgt reason la (estimateTokens msgs) := by
  unfold handleCompletion at h
  split at h
  · simp at h
  · split at h
    · simp at h
    · obtain ⟨pm, tgt, reason, la, hresp⟩ :=
        routeValidated_ok_shape _ _ _ _ _ _ _ _ _ h
      exact ⟨_, pm, tgt, reason, la, by assumption, hresp⟩

-- ---------------------------------------------------------------------------
-- C3 — cloud escalation keeps the escalation reason; metadata triplet
-- ---------------------------------------------------------------------------

/-- C3: when the local attempt succeeds and the confidence evaluation
selects cloud, the final response carries the cloud result (model and
message), `routing_reason` is the escalation reason from the confidence
evaluation (not overwritten by the cloud call) and `local_attempt` is
true; moreover every successful response carries the
`{confidence, routing_reason, local_attempt}` metadata triplet. -/
theorem c3_escalation_metadata (maxLocalTokens : ℕ) (body : Body)
    (msgs : List ChatMessage) (localRes cloudRes : ProviderResponse)
    (ts : String) (lat : ℕ)
    (hstream : body.stream ≠ some true)
    (hval : validateMessages body.messages = .ok msgs)
    (hskip : (determineTargetHybrid maxLocalTokens msgs (resolveMode body.mode_raw)
        none).skipLocal = false)
    (htgt : (determineTargetHybrid maxLocalTokens msgs (resolveMode body.mode_raw)
        none).target = .local)
    (hesc : (evaluateConfidenceRouting
        (some { confidence := localRes.confidence, cloud_handoff := localRes.cloud_handoff })
        (body.confidence_threshold.getD (7 / 10))).target = .cloud) :
    ((handleCompletion maxLocalTokens (.ok localRes) (.ok cloudRes) body ts lat).out
      = .ok { model := "lfo-gemini"
              choices := [{ index := 0, message := cloudRes, finish_reason := "stop" }]
              usage := { prompt_tokens := estimateTokens msgs
                         completion_tokens := (cloudRes.content.length + 3) / 4
                         total_tokens := estimateTokens msgs + (cloudRes.content.length + 3) / 4 }
              lfo_metadata := some
                { confidence := cloudRes.confidence
                  routing_reason := some (evaluateConfidenceRouting
                    (some { confidence := localRes.confidence
                            cloud_handoff := localRes.cloud_handoff })
                    (body.confidence_threshold.getD (7 / 10))).reason
                  local_attempt := some true } }
      ∧ (handleCompletion maxLocalTokens (.ok localRes) (.ok cloudRes) body ts lat).localCalled
          = true
      ∧ (handleCompletion maxLocalTokens (.ok localRes) (.ok cloudRes) body ts lat).cloudCalled
          = true)
    ∧ (∀ (lo co : Except String ProviderResponse) (b : Body) (ts' : String) (lat' : ℕ)
        (resp : ChatResponse),
        (handleCompletion maxLocalTokens lo co b ts' lat').out = .ok resp →
        ∃ m, resp.lfo_metadata = some m
          ∧ m.routing_reason.isSome ∧ m.local_attempt.isSome) := by
  constructor
  · have hmain : handleCompletion maxLocalTokens (.ok localRes) (.ok cloudRes) body ts lat
        = successTrace cloudRes .cloud
            (evaluateConfidenceRouting
              (some { confidence := localRes.confidence
                      cloud_handoff := localRes.cloud_handoff })
              (body.confidence_threshold.getD (7 / 10))).reason
            true (resolveMode body.mode_raw) (estimateTokens msgs) ts lat true true := by
      unfold handleCompletion
      rw [if_neg hstream]
      simp only [hval]
      unfold routeValidated
      rw [if_neg (by simp [hskip]), if_neg (by simp [htgt])]
      simp only [if_pos hesc]
    rw [hmain]
    exact ⟨rfl, rfl, rfl⟩
  · intro lo co b ts' lat' resp h
    obtain ⟨msgs', pm, tgt, reason, la, _, hresp⟩ :=
      handleCompletion_ok_shape maxLocalTokens lo co b ts' lat' resp h
    exact ⟨_, by rw [hresp]; rfl, by simp, by simp⟩

/-- Witness for C3: a local result with confidence 0.45 under the default
threshold escalates; the response carries the cloud message and the
original escalation reason. -/
theorem c3_witness :
    ((handleCompletion 1500 (.ok { content := "local answer", confidence := some (9 / 20) })
        (.ok { content := "cloud answer" })
        { messages := .arr [{ role := .str "user", content := .str "hi" }] } "t" 5).out
      = .ok { model := "lfo-gemini"
              choices := [{ index := 0, message := { content := "cloud answer" }
                            finish_reason := "stop" }]
              usage := { prompt_tokens := estimateTokens [{ role := "user", content := "hi" }]
                         completion_tokens := 3
                         total_tokens := estimateTokens [{ role := "user", content := "hi" }] + 3 }
              lfo_metadata := some
                { confidence := none
                  routing_reason := some (evaluateConfidenceRouting
                    (some { confidence := some (9 / 20), cloud_handoff := none })
                    (7 / 10)).reason
                  local_attempt := some true } })
    ∧ (handleCompletion 1500 (.ok { content := "local answer", confidence := some (9 / 20) })
        (.ok { content := "cloud answer" })
        { messages := .arr [{ role := .str "user", content := .str "hi" }] } "t" 5).localCalled
      = true := by
  have h := c3_escalation_metadata 1500
    { messages := .arr [{ role := .str "user", content := .str "hi" }] }
    [{ role := "user", content := "hi" }]
    { content := "local answer", confidence := some (9 / 20) }
    { content := "cloud answer" } "t" 5
    (by simp) rfl (by decide) (by decide)
    (by
      simp only [evaluateConfidenceRouting, Option.getD_some, Option.getD_none]
      rw [if_neg (by simp : ¬ (none : Option Bool) = some true)]
      rw [if_pos (by norm_num : (9 / 20 : ℚ) < 7 / 10)])
  exact ⟨h.1.1, h.1.2.1⟩

-- ---------------------------------------------------------------------------
-- C4 — validation failures (corrected: nothing is recorded in stats)
-- ---------------------------------------------------------------------------

/-- Counterexample to C4 as stated: an empty `messages` array yields the
400 BadRequest with no backend invoked, but `recordRequest` is never
called — the recorded field of the trace is `none`, not a record with the
failing status. -/
theorem c4_counterexample :
    (handleCompletion 1500 (.ok { content := "x" }) (.ok { content := "y" })
        { messages := .arr [] } "t" 0).out
      = .err 400 "invalid_request_error"
          "messages field is required and must be a non-empty array" none
    ∧ (handleCompletion 1500 (.ok { content := "x" }) (.ok { content := "y" })
        { messages := .arr [] } "t" 0).localCalled = false
    ∧ (handleCompletion 1500 (.ok { content := "x" }) (.ok { content := "y" })
        { messages := .arr [] } "t" 0).cloudCalled = false
    ∧ (handleCompletion 1500 (.ok { content := "x" }) (.ok { content := "y" })
        { messages := .arr [] } "t" 0).recorded = none :=
  ⟨rfl, rfl, rfl, rfl⟩

/-- C4 (amended): every request failing input validation gets the 400
`invalid_request_error` response, no backend adapter is invoked, and no
record is appended to the stats recorder (stats are only written on the
backend-path success and error paths). -/
theorem c4_validation_failure (maxLocalTokens : ℕ)
    (localOut cloudOut : Except String ProviderResponse) (body : Body)
    (ts : String) (lat : ℕ) (emsg : String)
    (hstream : body.stream ≠ some true)
    (hval : validateMessages body.messages = .error emsg) :
    handleCompletion maxLocalTokens localOut cloudOut body ts lat
      = { out := .err 400 "invalid_request_error" emsg none
          localCalled := false, cloudCalled := false, recorded := none } := by
  unfold handleCompletion
  rw [if_neg hstream, hval]

/-- Witness for C4 (amended): a message with a non-string role fails
validation with no backend call and no stats record. -/
theorem c4_witness :
    handleCompletion 1500 (.ok { content := "x" }) (.ok { content := "y" })
        { messages := .arr [{ role := .notStr, content := .str "hi" }] } "t" 7
      = { out := .err 400 "invalid_request_error"
            "Each message must have a string 'role' and string 'content' field" none
          localCalled := false, cloudCalled := false, recorded := none } :=
  c4_validation_failure 1500 (.ok { content := "x" }) (.ok { content := "y" })
    { messages := .arr [{ role := .notStr, content := .str "hi" }] } "t" 7
    "Each message must have a string 'role' and string 'content' field"
    (by simp) rfl

-- ---------------------------------------------------------------------------
-- C10 — usage token heuristic
-- ---------------------------------------------------------------------------

/-- C10: on every successful response, `completion_tokens` is
`ceil(content length / 4)` of the message actually returned in the
response, `prompt_tokens` is the router's own `estimateTokens` of the
validated request messages, and `total_tokens` is their sum — the counts
are character heuristics computed by the router, not backend-reported. -/
theorem c10_usage_heuristic (maxLocalTokens : ℕ)
    (localOut cloudOut : Except String ProviderResponse) (body : Body)
    (ts : String) (lat : ℕ) (resp : ChatResponse)
    (h : (handleCompletion maxLocalTokens localOut cloudOut body ts lat).out = .ok resp) :
    ∃ msgs, validateMessages body.messages = .ok msgs
      ∧ resp.usage.prompt_tokens = estimateTokens msgs
      ∧ resp.choices.length = 1
      ∧ (∀ c ∈ resp.choices,
          resp.usage.completion_tokens = (c.message.content.length + 3) / 4)
      ∧ resp.usage.total_tokens = resp.usage.prompt_tokens + resp.usage.completion_tokens := by
  obtain ⟨msgs, pm, tgt, reason, la, hv, hresp⟩ :=
    handleCompletion_ok_shape maxLocalTokens localOut cloudOut body ts lat resp h
  subst hresp
  refine ⟨msgs, hv, rfl, rfl, ?_, rfl⟩
  intro c hc
  simp only [successResponse, List.mem_singleton] at hc
  subst hc
  rfl

/-- The concrete response of the C10 witness request: "cloud answer" has
12 characters, hence 3 completion tokens, and "hi" estimates 1 prompt
token. -/
def c10Resp : ChatResponse :=
  { model := "lfo-gemini"
    choices := [{ index := 0, message := { content := "cloud answer" }
                  finish_reason := "stop" }]
    usage := { prompt_tokens := 1, completion_tokens := 3, total_tokens := 4 }
    lfo_metadata := some { confidence := none, routing_reason := some "mode_override"
                           local_attempt := some false } }

/-- Witness for C10 at a concrete cloud-mode request. -/
theorem c10_witness :
    ∃ msgs, validateMessages (Body.mk none
        (.arr [{ role := .str "user", content := .str "hi" }]) (.str "cloud") none).messages
        = .ok msgs
      ∧ c10Resp.usage.prompt_tokens = estimateTokens msgs
      ∧ c10Resp.choices.length = 1
      ∧ (∀ c ∈ c10Resp.choices,
          c10Resp.usage.completion_tokens = (c.message.content.length + 3) / 4)
      ∧ c10Resp.usage.total_tokens
          = c10Resp.usage.prompt_tokens + c10Resp.usage.completion_tokens :=
  c10_usage_heuristic 1500 (.ok { content := "local answer" })
    (.ok { content := "cloud answer" })
    (Body.mk none (.arr [{ role := .str "user", content := .str "hi" }]) (.str "cloud") none)
    "t" 4 c10Resp rfl

-- ---------------------------------------------------------------------------
-- C9 — stats ring buffer
-- ---------------------------------------------------------------------------

lemma recordRequest_ring_length_le (r : RequestRecord) (s : StatsState)
    (h : s.ring.length ≤ RING_SIZE) :
    (recordRequest r s).ring.length ≤ RING_SIZE := by
  simp only [recordRequest]
  split
  · rename_i hc
    simp only [List.length_append, List.length_singleton] at hc
    simp only [List.length_tail, List.length_append, List.length_singleton]
    omega
  · rename_i hc
    simp only [List.length_append, List.length_singleton] at hc ⊢
    omega

lemma foldRecord_ring_length_le (rs : List RequestRecord) (s : StatsState)
    (h : s.ring.length ≤ RING_SIZE) :
    (rs.foldl (fun st x => recordRequest x st) s).ring.length ≤ RING_SIZE := by
  induction rs generalizing s with
  | nil => simpa
  | cons a t ih => exact ih _ (recordRequest_ring_length_le a s h)

/-- C9: starting from the empty recorder, the ring never holds more than
`RING_SIZE` (50) records; a `recordRequest` at capacity evicts exactly the
oldest record (the front), below capacity it evicts nothing; and a
`getStats` snapshot returns the ring newest-first together with the
running counters. -/
theorem c9_stats_ring_buffer (rs : List RequestRecord) (s : StatsState)
    (r : RequestRecord) (now startTime : ℕ) :
    (rs.foldl (fun st x => recordRequest x st) initStats).ring.length ≤ RING_SIZE
    ∧ (s.ring.length = RING_SIZE → (recordRequest r s).ring = s.ring.tail ++ [r])
    ∧ (s.ring.length < RING_SIZE → (recordRequest r s).ring = s.ring ++ [r])
    ∧ (recordRequest r s).totalRequests = s.totalRequests + 1
    ∧ (getStats now startTime s).recent = s.ring.reverse
    ∧ (getStats now startTime s).total_requests = s.totalRequests
    ∧ (getStats now startTime s).total_local = s.totalLocal
    ∧ (getStats now startTime s).total_cloud = s.totalCloud
    ∧ (getStats now startTime s).total_errors = s.totalErrors
    ∧ (getStats now startTime s).circuit_trip_count = s.circuitTripCount := by
  refine ⟨foldRecord_ring_length_le rs initStats (by simp [initStats]),
    ?_, ?_, rfl, rfl, rfl, rfl, rfl, rfl, rfl⟩
  · intro hfull
    simp only [recordRequest]
    rw [if_pos (by simp [hfull, RING_SIZE])]
    cases hring : s.ring with
    | nil => rw [hring] at hfull; simp [RING_SIZE] at hfull
    | cons a t => simp
  · intro hlt
    simp only [recordRequest]
    rw [if_neg (by simp; omega)]

/-- A full ring of 50 identical records, for the C9 witness. -/
def fullStats : StatsState :=
  { initStats with
    ring := List.replicate 50
      { ts := "t", mode := "auto", target := "local", prompt_tokens := 1
        completion_tokens := 1, latency_ms := 2, status := 200, error := none } }

/-- The record pushed in the C9 witness. -/
def freshRecord : RequestRecord :=
  { ts := "u", mode := "auto", target := "cloud", prompt_tokens := 2
    completion_tokens := 3, latency_ms := 4, status := 200, error := none }

/-- Witness for C9: pushing onto a full ring evicts exactly the oldest
record, and the snapshot is the reversed ring. -/
theorem c9_witness :
    (recordRequest freshRecord fullStats).ring = fullStats.ring.tail ++ [freshRecord]
    ∧ (getStats 9 2 fullStats).recent = fullStats.ring.reverse :=
  ⟨(c9_stats_ring_buffer [] fullStats freshRecord 9 2).2.1
      (by simp [fullStats, RING_SIZE]),
    (c9_stats_ring_buffer [] fullStats freshRecord 9 2).2.2.2.2.1⟩

-- ---------------------------------------------------------------------------
-- C5 — transitions out of OPEN (corrected)
-- ---------------------------------------------------------------------------

/-- Counterexample to C5 as stated: four calls are admitted while CLOSED;
three fail at time 5 (opening the breaker with `openedAt = 5`); the fourth
— admitted before the breaker opened — completes successfully at time 6,
and `circuitOnSuccess` moves the breaker straight from OPEN to CLOSED
after only 1 ms, far below the 30 s reset timeout and not via HALF_OPEN. -/
theorem c5_counterexample :
    AndroidReach { state := .OPEN, consecutiveFailures := 3, openedAt := 5
                   halfOpenProbeInFlight := false } 1 5
    ∧ circuitOnSuccess { state := .OPEN, consecutiveFailures := 3, openedAt := 5
                         halfOpenProbeInFlight := false }
        = { state := .CLOSED, consecutiveFailures := 0, openedAt := 5
            halfOpenProbeInFlight := false }
    ∧ AndroidReach { state := .CLOSED, consecutiveFailures := 0, openedAt := 5
                     halfOpenProbeInFlight := false } 0 6
    ∧ 6 - 5 < RESET_TIMEOUT_MS := by
  have h4 : AndroidReach androidInit 4 0 :=
    .grant 0 (.grant 0 (.grant 0 (.grant 0 .init (Nat.le_refl 0) rfl)
      (Nat.le_refl 0) rfl) (Nat.le_refl 0) rfl) (Nat.le_refl 0) rfl
  have h3 : AndroidReach
      { state := .OPEN, consecutiveFailures := 3, openedAt := 5,
        halfOpenProbeInFlight := false } 1 5 :=
    .completeErr 5 (.completeErr 5 (.completeErr 5 h4 (by omega)) (Nat.le_refl 5))
      (Nat.le_refl 5)
  refine ⟨h3, rfl, ?_, by decide⟩
  exact .completeOk 6 h3 (by omega)

/-- C5 (amended): entering OPEN always stamps `openedAt := now` (both
breakers); the admission gate leaves OPEN only after the reset timeout has
elapsed and only into HALF_OPEN, never into CLOSED; however a success
callback from a call admitted earlier closes the breaker directly from any
state, OPEN included. -/
theorem c5_amended (now : ℕ) (s : AndroidCB) (g : GeminiCB) (tripworthy : Bool) :
    (s.state ≠ .OPEN → (circuitOnFailure now s).state = .OPEN →
      (circuitOnFailure now s).openedAt = now)
    ∧ (g.cbState ≠ .OPEN → (cbFailure tripworthy now g).cbState = .OPEN →
      (cbFailure tripworthy now g).cbOpenedAt = now)
    ∧ (s.state = .OPEN → now - s.openedAt < RESET_TIMEOUT_MS →
      circuitAllow now s = (s, false))
    ∧ (s.state = .OPEN → now - s.openedAt ≥ RESET_TIMEOUT_MS →
      circuitAllow now s
        = ({ s with state := .HALF_OPEN, halfOpenProbeInFlight := true }, true))
    ∧ (g.cbState = .OPEN → now - g.cbOpenedAt < CB_RESET_TIMEOUT_MS →
      cbAllow now g = (g, false))
    ∧ (g.cbState = .OPEN → now - g.cbOpenedAt ≥ CB_RESET_TIMEOUT_MS →
      cbAllow now g
        = ({ g with cbState := .HALF_OPEN, cbHalfOpenInFlight := true }, true))
    ∧ (circuitOnSuccess s).state = .CLOSED
    ∧ (cbSuccess g).cbState = .CLOSED := by
  refine ⟨?_, ?_, ?_, ?_, ?_, ?_, rfl, rfl⟩
  · intro hne hopen
    by_cases hc : s.state = .HALF_OPEN ∨ s.consecutiveFailures + 1 ≥ FAILURE_THRESHOLD
    · simp [circuitOnFailure, hc]
    · simp [circuitOnFailure, hc] at hopen
      exact absurd hopen hne
  · intro hne hopen
    cases tripworthy with
    | false =>
      simp [cbFailure] at hopen
      exact absurd hopen hne
    | true =>
      by_cases hc : g.cbState = .HALF_OPEN ∨ g.cbFailures + 1 ≥ CB_FAILURE_THRESHOLD
      · simp [cbFailure, hc]
      · simp [cbFailure, hc] at hopen
        exact absurd hopen hne
  · intro hopen hlt
    simp only [circuitAllow, hopen]
    rw [if_neg (by omega)]
  · intro hopen hge
    simp only [circuitAllow, hopen]
    rw [if_pos hge]
  · intro hopen hlt
    simp only [cbAllow, hopen]
    rw [if_neg (by omega)]
  · intro hopen hge
    simp only [cbAllow, hopen]
    rw [if_pos hge]

/-- Breaker states used by concrete witnesses below. -/
def openAndroid : AndroidCB :=
  { state := .OPEN, consecutiveFailures := 3, openedAt := 0, halfOpenProbeInFlight := false }

def halfOpenAndroid : AndroidCB :=
  { state := .HALF_OPEN, consecutiveFailures := 3, openedAt := 0,
    halfOpenProbeInFlight := true }

def twoFailAndroid : AndroidCB :=
  { state := .CLOSED, consecutiveFailures := 2, openedAt := 0,
    halfOpenProbeInFlight := false }

def openGemini : GeminiCB :=
  { cbState := .OPEN, cbFailures := 3, cbOpenedAt := 0, cbHalfOpenInFlight := false }

def halfOpenGemini : GeminiCB :=
  { cbState := .HALF_OPEN, cbFailures := 3, cbOpenedAt := 0, cbHalfOpenInFlight := false }

def twoFailGemini : GeminiCB :=
  { cbState := .CLOSED, cbFailures := 2, cbOpenedAt := 0, cbHalfOpenInFlight := false }

/-- Witness for C5 (amended): a third failure at time 7 opens the breaker
with `openedAt = 7`; at time 100 the open breaker admits nothing and stays
OPEN; at time 31000 (past the 30 s timeout) it admits one probe and moves
to HALF_OPEN — never straight to CLOSED through the gate. -/
theorem c5_witness :
    (circuitOnFailure 7 twoFailAndroid).openedAt = 7
    ∧ circuitAllow 100 openAndroid = (openAndroid, false)
    ∧ circuitAllow 31000 openAndroid
        = ({ openAndroid with state := .HALF_OPEN, halfOpenProbeInFlight := true }, true) :=
  ⟨(c5_amended 7 twoFailAndroid geminiInit true).1 (by decide) (by decide),
    (c5_amended 100 openAndroid geminiInit true).2.2.1 rfl (by decide),
    (c5_amended 31000 openAndroid geminiInit true).2.2.2.1 rfl (by decide)⟩

-- ---------------------------------------------------------------------------
-- C6 — opening after exactly three failures; fast-fail while OPEN
-- ---------------------------------------------------------------------------

/-- C6: from CLOSED, the first two consecutive tripworthy failures leave
the breaker CLOSED and the third opens it (both breakers, at arbitrary
failure times); while OPEN and before the reset timeout has elapsed, a
call fails immediately with the circuit-open error and the wrapped
network call is never attempted. -/
theorem c6_threshold_and_fast_fail (t1 t2 t3 now : ℕ) (s : AndroidCB) (g : GeminiCB)
    (fetchOutcome : Except String ProviderResponse) :
    (circuitOnFailure t1 androidInit).state = .CLOSED
    ∧ (circuitOnFailure t2 (circuitOnFailure t1 androidInit)).state = .CLOSED
    ∧ (circuitOnFailure t3 (circuitOnFailure t2 (circuitOnFailure t1 androidInit))).state
        = .OPEN
    ∧ (circuitOnFailure t3 (circuitOnFailure t2 (circuitOnFailure t1 androidInit))).openedAt
        = t3
    ∧ (s.state = .OPEN → now - s.openedAt < RESET_TIMEOUT_MS →
        callAndroidCactus now s fetchOutcome
          = (s, .error (androidCircuitOpenMsg now s), false))
    ∧ (cbFailure true t1 geminiInit).cbState = .CLOSED
    ∧ (cbFailure true t2 (cbFailure true t1 geminiInit)).cbState = .CLOSED
    ∧ (cbFailure true t3 (cbFailure true t2 (cbFailure true t1 geminiInit))).cbState = .OPEN
    ∧ (g.cbState = .OPEN → now - g.cbOpenedAt < CB_RESET_TIMEOUT_MS →
        callGemini now g fetchOutcome
          = (g, .error (geminiCircuitOpenMsg now g), false)) := by
  refine ⟨by simp [circuitOnFailure, androidInit, FAILURE_THRESHOLD],
    by simp [circuitOnFailure, androidInit, FAILURE_THRESHOLD],
    by simp [circuitOnFailure, androidInit, FAILURE_THRESHOLD],
    by simp [circuitOnFailure, androidInit, FAILURE_THRESHOLD],
    ?_,
    by simp [cbFailure, geminiInit, CB_FAILURE_THRESHOLD],
    by simp [cbFailure, geminiInit, CB_FAILURE_THRESHOLD],
    by simp [cbFailure, geminiInit, CB_FAILURE_THRESHOLD],
    ?_⟩
  · intro hopen hlt
    unfold callAndroidCactus
    simp only [circuitAllow, hopen]
    rw [if_neg (show ¬ now - s.openedAt ≥ RESET_TIMEOUT_MS by omega)]
    simp
  · intro hopen hlt
    unfold callGemini
    simp only [cbAllow, hopen]
    rw [if_neg (show ¬ now - g.cbOpenedAt ≥ CB_RESET_TIMEOUT_MS by omega)]
    simp

/-- Witness for C6: the opened breaker at time 10 rejects a would-be
successful call without attempting it. -/
theorem c6_witness :
    callAndroidCactus 10 openAndroid (.ok { content := "x" })
      = (openAndroid, .error (androidCircuitOpenMsg 10 openAndroid), false) :=
  (c6_threshold_and_fast_fail 0 0 0 10 openAndroid geminiInit
    (.ok { content := "x" })).2.2.2.2.1 rfl (by decide)

-- ---------------------------------------------------------------------------
-- C7 — probe resolution (corrected: non-tripworthy Gemini probe failures)
-- ---------------------------------------------------------------------------

/-- Counterexample to C7 as stated: the Gemini breaker opens after three
tripworthy failures; at time 60000 the probe is admitted, the call fails
with the (non-tripworthy) invalid-key error, and the breaker stays in
HALF_OPEN — it does not transition back to OPEN and `openedAt` is not
refreshed. -/
theorem c7_counterexample :
    cbFailure true 0 (cbFailure true 0 (cbFailure true 0 geminiInit)) = openGemini
    ∧ callGemini 60000 openGemini
        (.error "Gemini API key is invalid or revoked. Check GEMINI_API_KEY in .env")
      = (halfOpenGemini,
         .error "Gemini API key is invalid or revoked. Check GEMINI_API_KEY in .env", true)
    ∧ halfOpenGemini.cbState ≠ .OPEN := by
  refine ⟨by decide, rfl, by decide⟩

/-- C7 (amended): a probe success closes either breaker with counters
reset and the probe flag cleared; a probe failure reopens the breaker
with `openedAt` refreshed — unconditionally for the Android breaker, and
for the Gemini breaker only when the failure is tripworthy; a
non-tripworthy Gemini probe failure leaves it in HALF_OPEN with only the
probe flag cleared. -/
theorem c7_probe_resolution (now : ℕ) (s : AndroidCB) (g : GeminiCB) :
    circuitOnSuccess s
      = { state := .CLOSED, consecutiveFailures := 0, openedAt := s.openedAt,
          halfOpenProbeInFlight := false }
    ∧ cbSuccess g
      = { cbState := .CLOSED, cbFailures := 0, cbOpenedAt := g.cbOpenedAt,
          cbHalfOpenInFlight := false }
    ∧ (s.state = .HALF_OPEN → circuitOnFailure now s
        = { state := .OPEN, consecutiveFailures := s.consecutiveFailures + 1,
            openedAt := now, halfOpenProbeInFlight := false })
    ∧ (g.cbState = .HALF_OPEN → cbFailure true now g
        = { cbState := .OPEN, cbFailures := g.cbFailures + 1, cbOpenedAt := now,
            cbHalfOpenInFlight := false })
    ∧ cbFailure false now g = { g with cbHalfOpenInFlight := false } := by
  refine ⟨rfl, rfl, ?_, ?_, rfl⟩
  · intro hho
    simp [circuitOnFailure, hho]
  · intro hho
    simp [cbFailure, hho]

/-- Witness for C7 (amended): a probe failure at time 42 on a HALF_OPEN
Android breaker reopens it with `openedAt = 42`. -/
theorem c7_witness :
    circuitOnFailure 42 halfOpenAndroid
      = { state := .OPEN, consecutiveFailures := 4, openedAt := 42,
          halfOpenProbeInFlight := false } :=
  (c7_probe_resolution 42 halfOpenAndroid geminiInit).2.2.1 rfl

-- ---------------------------------------------------------------------------
-- C8 — auth/quota failures and the failure counters (corrected)
-- ---------------------------------------------------------------------------

/-- Counterexample to C8 as stated: an Android failure whose message the
pipeline classifies as quota-exceeded (403, a PermanentAuthOrQuota kind)
still increments the Android breaker's consecutive-failure counter from 0
to 1. -/
theorem c8_counterexample :
    classifyError "Android error: quota exceeded" = (403, "quota_exceeded")
    ∧ androidInit.consecutiveFailures = 0
    ∧ (callAndroidCactus 0 androidInit
        (.error "Android error: quota exceeded")).1.consecutiveFailures = 1 := by
  refine ⟨by decide, rfl, by decide⟩

/-- C8 (amended): on the cloud path a failure whose message marks an
invalid/revoked key or exceeded quota is non-tripworthy and never
increments `cbFailures`; on the local path every failure increments
`consecutiveFailures`, including those the pipeline classifies as
auth/quota errors. -/
theorem c8_auth_quota_failures (now : ℕ) (g : GeminiCB) (s : AndroidCB) (msg : String) :
    ((jsIncludes msg "invalid or revoked" = true ∨ jsIncludes msg "quota exceeded" = true) →
      (cbFailure (geminiTripworthy msg) now g).cbFailures = g.cbFailures)
    ∧ (circuitOnFailure now s).consecutiveFailures = s.consecutiveFailures + 1 := by
  constructor
  · intro hmsg
    have ht : geminiTripworthy msg = false := by
      unfold geminiTripworthy
      rcases hmsg with h | h <;> simp [h]
    simp [cbFailure, ht]
  · simp only [circuitOnFailure]
    split <;> rfl

/-- Witness for C8 (amended): the invalid-key message is non-tripworthy
and leaves the Gemini failure counter unchanged. -/
theorem c8_witness :
    (cbFailure (geminiTripworthy
        "Gemini API key is invalid or revoked. Check GEMINI_API_KEY in .env") 3
      twoFailGemini).cbFailures = 2 :=
  (c8_auth_quota_failures 3 twoFailGemini androidInit
    "Gemini API key is invalid or revoked. Check GEMINI_API_KEY in .env").1
    (Or.inl (by decide))

end LFO
